import Mathlib

/-!
Shallow embedding of the backend process supervisor from
`src/frontend/src-tauri/src/lib.rs` (a Tauri sidecar supervisor):
the Lifecycle Registry (`BACKEND_PORT` atomic, `BACKEND_CHILD` mutex),
the command surface (`get_backend_port`, `terminate_backend`),
the event relay loop, the setup path of `run`, and the
close-requested shutdown hook. External outcomes (port picker,
sidecar build, spawn, mutex acquisition, kill results) are explicit
inputs to the embedded functions.
-/

set_option linter.unusedVariables false

deriving instance DecidableEq for Except

namespace MsRewards

/-- Log severity levels used by the supervisor's diagnostics. -/
inductive LogLevel where
  | info
  | warn
  | error
deriving DecidableEq, Repr

/-- The process-wide Lifecycle Registry: the assigned backend port
(`BACKEND_PORT`, stored value 0 meaning unset) and the optional child
handle (`BACKEND_CHILD`, a mutex-guarded `Option<CommandChild>`); child
handles are represented by opaque numeric ids. -/
structure RegistryState where
  backendPort : Nat
  backendChild : Option Nat
deriving DecidableEq, Repr

/-- Registry at process start: port 0 (unset), no child. -/
def initialState : RegistryState := ⟨0, none⟩

/-- Embedding of `get_backend_port`: load `BACKEND_PORT`; if it is 0,
return the default 8000, otherwise return the stored value. -/
def get_backend_port (s : RegistryState) : Nat :=
  let port := s.backendPort
  if port = 0 then 8000 else port

/-- Output of `terminate_backend`: the returned `Result` value, the
registry state afterwards, and the number of kill requests issued. -/
structure TermOut where
  result : Except String Unit
  state : RegistryState
  kills : Nat
deriving DecidableEq, Repr

/-- Embedding of `terminate_backend`: when the registry mutex is
acquired (`lockOk`), take the child handle from the slot; if one was
present, issue a kill request whose OS-level outcome is `killResult`,
propagating its failure description via `map_err` and `?`. The slot is
cleared by the take before the kill outcome is inspected; when the lock
is not acquired the whole branch is skipped and `Ok(())` is returned. -/
def terminate_backend (lockOk : Bool) (killResult : Except String Unit)
    (s : RegistryState) : TermOut :=
  if lockOk then
    match s.backendChild with
    | some _ =>
      match killResult with
      | .ok _ => ⟨.ok (), { s with backendChild := none }, 1⟩
      | .error e => ⟨.error e, { s with backendChild := none }, 1⟩
    | none => ⟨.ok (), s, 0⟩
  else ⟨.ok (), s, 0⟩

/-- Embedding of the `CloseRequested` window-event shutdown hook: take
the child handle under the mutex and, if present, issue a kill request
whose outcome is discarded (`let _ = child.kill()`). Returns the
registry state and the number of kill requests issued; the handler has
no error channel at all. -/
def on_close_requested (lockOk : Bool) (killResult : Except String Unit)
    (s : RegistryState) : RegistryState × Nat :=
  if lockOk then
    match s.backendChild with
    | some _ => ({ s with backendChild := none }, 1)
    | none => (s, 0)
  else (s, 0)

/-- Child process events (`CommandEvent` from the shell plugin):
stdout/stderr lines (decoded from bytes to text), a process error
message, or termination carrying an optional exit code. The catch-all
arm of the relay's match is represented by `other`. -/
inductive CommandEvent where
  | stdout (line : String)
  | stderr (line : String)
  | error (err : String)
  | terminated (code : Option Int)
  | other
deriving DecidableEq, Repr

/-- A notification emitted toward the frontend via `app_handle.emit`:
a named channel carrying either a line of text or an optional exit
code. -/
inductive Emission where
  | textEvent (channel : String) (payload : String)
  | codeEvent (channel : String) (code : Option Int)
deriving DecidableEq, Repr

/-- Output of one iteration of the relay loop body: the registry state
afterwards, the notifications emitted, and the log lines produced. -/
structure RelayOut where
  state : RegistryState
  emissions : List Emission
  logs : List (LogLevel × String)
deriving DecidableEq, Repr

/-- Embedding of one iteration of the event-relay loop spawned in
`run`'s setup: dispatch on the received event, log it, emit the
corresponding frontend notification, and on `Terminated` clear the
child slot under the mutex. -/
def relay_handle_event (lockOk : Bool) (ev : CommandEvent)
    (s : RegistryState) : RelayOut :=
  match ev with
  | .stdout line =>
      ⟨s, [.textEvent "py-log" line],
        [(.info, "[Backend] " ++ line.trim)]⟩
  | .stderr line =>
      ⟨s, [.textEvent "py-error" line],
        [(.error, "[Backend Error] " ++ line.trim)]⟩
  | .error err =>
      ⟨s, [.textEvent "py-error" ("Process error: " ++ err)],
        [(.error, "[Backend Process Error] " ++ err)]⟩
  | .terminated code =>
      ⟨if lockOk then { s with backendChild := none } else s,
        [.codeEvent "backend-terminated" code],
        [(.info, "[Backend] Process terminated with code")]⟩
  | .other => ⟨s, [], []⟩

/-- Embedding of the port-allocation step of `run`'s setup (production
mode): match on `portpicker::pick_unused_port()`; on `Some(p)` use `p`,
on `None` log an error-level diagnostic and fall back to 8000. Returns
the chosen port and the log entries produced. -/
def allocate_port (picked : Option Nat) : Nat × List (LogLevel × String) :=
  match picked with
  | some p => (p, [])
  | none =>
      (8000, [(.error, "Failed to find an available port, using default 8000")])

/-- External outcomes consumed by `run`'s setup: the port-picker
result, the result of building the sidecar command, the result of
spawning it (yielding a child handle id), and whether the registry
mutex is acquired when storing the handle. -/
structure SetupInputs where
  picked : Option Nat
  sidecarOk : Except String Unit
  spawnOk : Except String Nat
  lockOk : Bool
deriving Repr

/-- Embedding of `run`'s setup closure, production path: allocate a
port, store it in `BACKEND_PORT`, log the assignment, then build and
spawn the sidecar; on success store the child handle in the registry
under the mutex; on either failure log an error and continue with no
active child. Returns the resulting registry state and the log entries
produced. -/
def run_setup (inp : SetupInputs) (s : RegistryState) :
    RegistryState × List (LogLevel × String) :=
  let pr := allocate_port inp.picked
  let s1 : RegistryState := { s with backendPort := pr.1 }
  let logs1 := pr.2 ++
    [(LogLevel.info, "Assigned dynamic port for backend: " ++ toString pr.1)]
  match inp.sidecarOk with
  | .error e => (s1, logs1 ++ [(.error, "Failed to create sidecar command: " ++ e)])
  | .ok _ =>
    match inp.spawnOk with
    | .error e => (s1, logs1 ++ [(.error, "Failed to spawn backend sidecar: " ++ e)])
    | .ok childId =>
      (if inp.lockOk then { s1 with backendChild := some childId } else s1, logs1)

/-- An operation that can touch the Lifecycle Registry after setup: a
port query, an explicit terminate command, the shutdown hook, or one
relay iteration. Mutex acquisition and kill outcomes are explicit
inputs carried by the operation. -/
inductive Op where
  | getPort
  | terminate (lockOk : Bool) (killResult : Except String Unit)
  | closeRequested (lockOk : Bool) (killResult : Except String Unit)
  | relayEvent (lockOk : Bool) (ev : CommandEvent)
deriving Repr

/-- The registry state after one operation. -/
def applyOp (s : RegistryState) (op : Op) : RegistryState :=
  match op with
  | .getPort => s
  | .terminate l k => (terminate_backend l k s).state
  | .closeRequested l k => (on_close_requested l k s).1
  | .relayEvent l ev => (relay_handle_event l ev s).state

/-- Number of kill requests issued by one operation from state `s`. -/
def killsOf (s : RegistryState) (op : Op) : Nat :=
  match op with
  | .getPort => 0
  | .terminate l k => (terminate_backend l k s).kills
  | .closeRequested l k => (on_close_requested l k s).2
  | .relayEvent _ _ => 0

/-- Whether one operation acts on the child handle, i.e. clears a
slot that held a handle (kill or observe action). -/
def actedOf (s : RegistryState) (op : Op) : Nat :=
  if (applyOp s op).backendChild = s.backendChild then 0 else 1

/-- The registry state after a sequence of operations. Since every
critical section in the source is a short mutex-guarded block, any
concurrent schedule of these operations is some sequential order of
their atomic critical sections, i.e. some list handled here. -/
def runOps (s : RegistryState) (ops : List Op) : RegistryState :=
  ops.foldl applyOp s

/-- Total number of kill requests issued along a sequence of
operations. -/
def totalKills (s : RegistryState) : List Op → Nat
  | [] => 0
  | op :: rest => killsOf s op + totalKills (applyOp s op) rest

/-- Total number of operations along a sequence that act on a present
child handle. -/
def totalActed (s : RegistryState) : List Op → Nat
  | [] => 0
  | op :: rest => actedOf s op + totalActed (applyOp s op) rest

/-- No operation on the registry ever changes the stored port. -/
theorem applyOp_backendPort (s : RegistryState) (op : Op) :
    (applyOp s op).backendPort = s.backendPort := by
  cases op with
  | getPort => rfl
  | terminate l k =>
      cases l <;> cases h : s.backendChild <;> cases k <;>
        simp [applyOp, terminate_backend, h]
  | closeRequested l k =>
      cases l <;> cases h : s.backendChild <;>
        simp [applyOp, on_close_requested, h]
  | relayEvent l ev =>
      cases ev <;> cases l <;> simp [applyOp, relay_handle_event]

/-- An operation either leaves the child slot unchanged or clears it;
no operation ever populates the slot. -/
theorem applyOp_child_cases (s : RegistryState) (op : Op) :
    (applyOp s op).backendChild = s.backendChild ∨
      (applyOp s op).backendChild = none := by
  cases op with
  | getPort => exact Or.inl rfl
  | terminate l k =>
      cases l <;> cases h : s.backendChild <;> cases k <;>
        simp [applyOp, terminate_backend, h]
  | closeRequested l k =>
      cases l <;> cases h : s.backendChild <;>
        simp [applyOp, on_close_requested, h]
  | relayEvent l ev =>
      cases ev <;> cases l <;> simp [applyOp, relay_handle_event]

/-- A kill request is only issued by an operation that acts on a
present child handle. -/
theorem killsOf_le_actedOf (s : RegistryState) (op : Op) :
    killsOf s op ≤ actedOf s op := by
  cases op with
  | getPort => simp [killsOf]
  | terminate l k =>
      cases l <;> cases h : s.backendChild <;> cases k <;>
        simp [killsOf, actedOf, applyOp, terminate_backend, h]
  | closeRequested l k =>
      cases l <;> cases h : s.backendChild <;>
        simp [killsOf, actedOf, applyOp, on_close_requested, h]
  | relayEvent l ev => simp [killsOf]

/-- An operation that acted on the child handle leaves the slot
cleared. -/
theorem actedOf_pos_child_none (s : RegistryState) (op : Op)
    (h : actedOf s op ≠ 0) : (applyOp s op).backendChild = none := by
  rcases applyOp_child_cases s op with hc | hc
  · exact absurd (by simp [actedOf, hc]) h
  · exact hc

/-- An empty child slot stays empty under every operation. -/
theorem applyOp_child_none (s : RegistryState) (op : Op)
    (h : s.backendChild = none) : (applyOp s op).backendChild = none := by
  rcases applyOp_child_cases s op with hc | hc
  · rw [hc, h]
  · exact hc

/-- No operation acts on an empty child slot. -/
theorem actedOf_none (s : RegistryState) (op : Op)
    (h : s.backendChild = none) : actedOf s op = 0 := by
  simp [actedOf, applyOp_child_none s op h, h]

/-- From a state with an empty child slot, no operation in a sequence
ever acts on the handle. -/
theorem totalActed_none (ops : List Op) :
    ∀ s : RegistryState, s.backendChild = none → totalActed s ops = 0 := by
  induction ops with
  | nil => intro s _; rfl
  | cons op rest ih =>
      intro s h
      simp [totalActed, actedOf_none s op h, ih _ (applyOp_child_none s op h)]

/-- Along any sequence of operations, at most one acts on the child
handle: the first to clear a present handle leaves the slot empty and
nothing repopulates it. -/
theorem totalActed_le_one (ops : List Op) :
    ∀ s : RegistryState, totalActed s ops ≤ 1 := by
  induction ops with
  | nil => intro s; simp [totalActed]
  | cons op rest ih =>
      intro s
      by_cases hcnd : (applyOp s op).backendChild = s.backendChild
      · have h0 : actedOf s op = 0 := by simp [actedOf, hcnd]
        simpa [totalActed, h0] using ih (applyOp s op)
      · have h1 : actedOf s op = 1 := by simp [actedOf, hcnd]
        have hc : (applyOp s op).backendChild = none :=
          actedOf_pos_child_none s op (by simp [actedOf, hcnd])
        simp [totalActed, h1, totalActed_none rest _ hc]

/-- Kill requests along a sequence are bounded by handle-acting
operations along it. -/
theorem totalKills_le_totalActed (ops : List Op) :
    ∀ s : RegistryState, totalKills s ops ≤ totalActed s ops := by
  induction ops with
  | nil => intro s; simp [totalKills, totalActed]
  | cons op rest ih =>
      intro s
      have h := Nat.add_le_add (killsOf_le_actedOf s op) (ih (applyOp s op))
      simpa [totalKills, totalActed] using h

/-- The stored port survives any sequence of operations. -/
theorem runOps_backendPort (ops : List Op) :
    ∀ s : RegistryState, (runOps s ops).backendPort = s.backendPort := by
  induction ops with
  | nil => intro s; rfl
  | cons op rest ih =>
      intro s
      have h := (ih (applyOp s op)).trans (applyOp_backendPort s op)
      simpa [runOps, List.foldl] using h

/-- Setup stores exactly the allocated (or fallback) port, whatever
happens to the launch afterwards. -/
theorem run_setup_backendPort (inp : SetupInputs) (s : RegistryState) :
    (run_setup inp s).1.backendPort = (allocate_port inp.picked).1 := by
  unfold run_setup
  cases hsc : inp.sidecarOk <;> cases hsp : inp.spawnOk <;>
    cases hl : inp.lockOk <;> simp [hsc, hsp, hl]

end MsRewards

namespace MsRewards

/-- Claim C4: `get_backend_port` returns 8000 when the stored port is
the unset sentinel 0 (in particular in the state before any launch),
and returns the stored value otherwise; it is a total function and
never fails. -/
theorem get_backend_port_default_or_stored :
    ∀ s : RegistryState,
      (s.backendPort = 0 → get_backend_port s = 8000) ∧
      (s.backendPort ≠ 0 → get_backend_port s = s.backendPort) ∧
      get_backend_port initialState = 8000 := by
  intro s
  refine ⟨?_, ?_, rfl⟩
  · intro h; simp [get_backend_port, h]
  · intro h; simp [get_backend_port, h]

/-- Witness for C4 at concrete states: the unset sentinel yields 8000
and a stored port 54321 is returned as is. -/
theorem get_backend_port_default_or_stored_witness :
    get_backend_port ⟨0, none⟩ = 8000 ∧ get_backend_port ⟨54321, none⟩ = 54321 :=
  ⟨((get_backend_port_default_or_stored ⟨0, none⟩).1 rfl),
   ((get_backend_port_default_or_stored ⟨54321, none⟩).2.1 (by decide))⟩

/-- Claim C1: `terminate_backend` atomically takes the child handle
from the registry: an empty slot yields vacuous success with no kill
request; a present handle yields exactly one kill request, the slot is
cleared regardless of the kill outcome, and a kill failure is returned
as an error carrying the OS failure description; across two sequential
calls at most one kill is attempted, the second call observing an
empty slot and succeeding vacuously. -/
theorem terminate_backend_take_and_kill :
    ∀ (s : RegistryState) (kr kr2 : Except String Unit),
      (s.backendChild = none → terminate_backend true kr s = ⟨.ok (), s, 0⟩) ∧
      (∀ c, s.backendChild = some c →
        (terminate_backend true kr s).kills = 1 ∧
        (terminate_backend true kr s).state = { s with backendChild := none } ∧
        (∀ e, kr = .error e → (terminate_backend true kr s).result = .error e) ∧
        (kr = .ok () → (terminate_backend true kr s).result = .ok ())) ∧
      (terminate_backend true kr s).kills
        + (terminate_backend true kr2 (terminate_backend true kr s).state).kills
        ≤ 1 ∧
      (∀ c, s.backendChild = some c →
        terminate_backend true kr2 (terminate_backend true kr s).state
          = ⟨.ok (), (terminate_backend true kr s).state, 0⟩) := by
  intro s kr kr2
  cases h : s.backendChild <;> cases kr <;> cases kr2 <;>
    simp [terminate_backend, h]

/-- Witness for C1 at a concrete state with a live handle and a
failing kill: one kill, error propagated, and the second call is a
no-op success. -/
theorem terminate_backend_take_and_kill_witness :
    (terminate_backend true (Except.error "boom") ⟨5000, some 1⟩).kills = 1 ∧
    (terminate_backend true (Except.error "boom") ⟨5000, some 1⟩).result
      = Except.error "boom" ∧
    terminate_backend true (Except.ok ())
        (terminate_backend true (Except.error "boom") ⟨5000, some 1⟩).state
      = ⟨Except.ok (),
          (terminate_backend true (Except.error "boom") ⟨5000, some 1⟩).state, 0⟩ := by
  have h := terminate_backend_take_and_kill ⟨5000, some 1⟩
    (Except.error "boom") (Except.ok ())
  exact ⟨(h.2.1 1 rfl).1, (h.2.1 1 rfl).2.2.1 "boom" rfl, h.2.2.2 1 rfl⟩

/-- Claim C3: a `Terminated` event makes the relay clear the child
slot; from the cleared state any subsequent `terminate_backend` call
succeeds vacuously with no kill request, and any sequence of further
terminate calls issues zero kill requests. -/
theorem relay_terminated_clears_registry :
    ∀ (s : RegistryState) (c : Nat) (code : Option Int),
      s.backendChild = some c →
      (relay_handle_event true (.terminated code) s).state.backendChild = none ∧
      (∀ kr, terminate_backend true kr
          (relay_handle_event true (.terminated code) s).state
        = ⟨.ok (), (relay_handle_event true (.terminated code) s).state, 0⟩) ∧
      (∀ krs : List (Except String Unit),
        totalKills (relay_handle_event true (.terminated code) s).state
          (krs.map (Op.terminate true)) = 0) := by
  intro s c code _
  have hclear :
      (relay_handle_event true (.terminated code) s).state.backendChild = none := by
    simp [relay_handle_event]
  refine ⟨hclear, ?_, ?_⟩
  · intro kr
    cases kr <;> simp [terminate_backend, hclear]
  · intro krs
    have h0 := totalActed_none (krs.map (Op.terminate true)) _ hclear
    have h1 := totalKills_le_totalActed (krs.map (Op.terminate true))
      (relay_handle_event true (.terminated code) s).state
    omega

/-- Witness for C3 at a concrete state: the relay's cleanup after
`Terminated(Some(0))` empties the slot and the next terminate call is
a vacuous success. -/
theorem relay_terminated_clears_registry_witness :
    (relay_handle_event true (CommandEvent.terminated (some 0))
        ⟨5000, some 2⟩).state.backendChild = none ∧
    terminate_backend true (Except.ok ())
        (relay_handle_event true (CommandEvent.terminated (some 0))
          ⟨5000, some 2⟩).state
      = ⟨Except.ok (),
          (relay_handle_event true (CommandEvent.terminated (some 0))
            ⟨5000, some 2⟩).state, 0⟩ := by
  have h := relay_terminated_clears_registry ⟨5000, some 2⟩ 2 (some 0) rfl
  exact ⟨h.1, h.2.1 (Except.ok ())⟩

/-- Claim C5: the assigned port is write-once per run: after setup
stores an allocated nonzero port P, no sequence of registry operations
changes it and `get_backend_port` keeps returning P. -/
theorem backend_port_write_once :
    ∀ (inp : SetupInputs) (P : Nat) (ops : List Op),
      inp.picked = some P → P ≠ 0 →
      (runOps (run_setup inp initialState).1 ops).backendPort = P ∧
      get_backend_port (runOps (run_setup inp initialState).1 ops) = P := by
  intro inp P ops hp hP
  have h1 : (run_setup inp initialState).1.backendPort = P := by
    rw [run_setup_backendPort]; simp [allocate_port, hp]
  have h2 : (runOps (run_setup inp initialState).1 ops).backendPort = P :=
    (runOps_backendPort ops _).trans h1
  exact ⟨h2, by simp [get_backend_port, h2, hP]⟩

/-- Witness for C5: after allocating port 54321 and launching, then a
terminate call and a port query, the port is still 54321. -/
theorem backend_port_write_once_witness :
    get_backend_port (runOps
        (run_setup ⟨some 54321, Except.ok (), Except.ok 1, true⟩ initialState).1
        [Op.terminate true (Except.ok ()), Op.getPort]) = 54321 :=
  (backend_port_write_once ⟨some 54321, Except.ok (), Except.ok 1, true⟩ 54321
    [Op.terminate true (Except.ok ()), Op.getPort] rfl (by decide)).2

/-- Claim C7: under any interleaving of mutex-serialized registry
operations (explicit terminate, shutdown hook, relay cleanup, port
queries), at most one operation acts on a present child handle and at
most one kill request is issued in total; with a live handle, a
terminate call and the shutdown hook in either order issue exactly one
kill request. -/
theorem at_most_one_kill_under_concurrency :
    ∀ (ops : List Op) (s : RegistryState),
      (totalActed s ops ≤ 1 ∧ totalKills s ops ≤ 1) ∧
      (∀ c kr1 kr2, s.backendChild = some c →
        totalKills s [Op.terminate true kr1, Op.closeRequested true kr2] = 1 ∧
        totalKills s [Op.closeRequested true kr1, Op.terminate true kr2] = 1) := by
  intro ops s
  refine ⟨⟨totalActed_le_one ops s,
    le_trans (totalKills_le_totalActed ops s) (totalActed_le_one ops s)⟩, ?_⟩
  intro c kr1 kr2 h
  cases kr1 <;> cases kr2 <;>
    simp [totalKills, killsOf, applyOp, terminate_backend, on_close_requested, h]

/-- Witness for C7 at a concrete state with a live handle: both orders
of terminate and shutdown hook issue exactly one kill. -/
theorem at_most_one_kill_under_concurrency_witness :
    totalKills ⟨5000, some 3⟩
      [Op.terminate true (Except.ok ()), Op.closeRequested true (Except.ok ())] = 1 ∧
    totalKills ⟨5000, some 3⟩
      [Op.closeRequested true (Except.ok ()), Op.terminate true (Except.ok ())] = 1 :=
  (at_most_one_kill_under_concurrency [] ⟨5000, some 3⟩).2 3
    (Except.ok ()) (Except.ok ()) rfl

/-- Claim C8: the shutdown hook performs the same take-and-kill
sequence as `terminate_backend` (same resulting state, same number of
kill requests) but never propagates a kill failure: its outcome is the
same whether the kill succeeds or fails, and it has no error return at
all. -/
theorem close_requested_ignores_kill_failure :
    ∀ (lockOk : Bool) (kr : Except String Unit) (s : RegistryState),
      on_close_requested lockOk kr s = on_close_requested lockOk (.ok ()) s ∧
      (on_close_requested lockOk kr s).1 = (terminate_backend lockOk kr s).state ∧
      (on_close_requested lockOk kr s).2 = (terminate_backend lockOk kr s).kills := by
  intro l kr s
  cases l <;> cases h : s.backendChild <;> cases kr <;>
    simp [on_close_requested, terminate_backend, h]

/-- Claim C9: a launch failure during setup (sidecar build or spawn
error) leaves the child slot empty and the port at its allocated (or
fallback) value; `get_backend_port` and `terminate_backend` remain
total and well-behaved on the resulting state. -/
theorem launch_failure_leaves_state :
    ∀ (inp : SetupInputs),
      (∃ e, inp.sidecarOk = Except.error e) ∨
        (∃ e, inp.spawnOk = Except.error e) →
      (run_setup inp initialState).1.backendChild = none ∧
      (run_setup inp initialState).1.backendPort = (allocate_port inp.picked).1 ∧
      (∀ kr, terminate_backend true kr (run_setup inp initialState).1
        = ⟨.ok (), (run_setup inp initialState).1, 0⟩) ∧
      get_backend_port (run_setup inp initialState).1
        = (if (allocate_port inp.picked).1 = 0 then 8000
           else (allocate_port inp.picked).1) := by
  intro inp h
  have hnc : (run_setup inp initialState).1.backendChild = none := by
    unfold run_setup
    rcases h with ⟨e, he⟩ | ⟨e, he⟩
    · simp [he, initialState]
    · cases hsc : inp.sidecarOk <;> simp [hsc, he, initialState]
  refine ⟨hnc, run_setup_backendPort inp initialState, ?_, ?_⟩
  · intro kr
    cases kr <;> simp [terminate_backend, hnc]
  · simp [get_backend_port, run_setup_backendPort]

/-- Witness for C9 at a concrete failing spawn: the child slot is
empty and the port query returns the allocated port 5000. -/
theorem launch_failure_leaves_state_witness :
    (run_setup ⟨some 5000, Except.ok (), Except.error "spawn failed", true⟩
      initialState).1.backendChild = none ∧
    get_backend_port (run_setup ⟨some 5000, Except.ok (),
      Except.error "spawn failed", true⟩ initialState).1 = 5000 := by
  have h := launch_failure_leaves_state
    ⟨some 5000, Except.ok (), Except.error "spawn failed", true⟩
    (Or.inr ⟨"spawn failed", rfl⟩)
  exact ⟨h.1, by simpa [allocate_port] using h.2.2.2⟩

/-- Counterexample to C2 as stated: the relay forwards a stdout line
to the channel named "py-log", not to one tagged "backend output"; the
stderr and termination channels are "py-error" and
"backend-terminated", not "backend error" and "backend terminated". -/
theorem relay_channel_names_cex :
    (relay_handle_event true (CommandEvent.stdout "ready") initialState).emissions
      = [Emission.textEvent "py-log" "ready"] ∧
    ("py-log" : String) ≠ "backend output" ∧
    ("py-error" : String) ≠ "backend error" ∧
    ("backend-terminated" : String) ≠ "backend terminated" :=
  ⟨rfl, by decide, by decide, by decide⟩

/-- Claim C2 as amended: for every event the relay receives, it
forwards stdout lines to the "py-log" channel, stderr lines and
process errors (the latter with a synthesized "Process error: "
message) to the "py-error" channel, and termination to the
"backend-terminated" channel carrying the exit code. -/
theorem relay_channel_names :
    ∀ (line err : String) (code : Option Int) (s : RegistryState) (l : Bool),
      (relay_handle_event l (.stdout line) s).emissions
        = [.textEvent "py-log" line] ∧
      (relay_handle_event l (.stderr line) s).emissions
        = [.textEvent "py-error" line] ∧
      (relay_handle_event l (.error err) s).emissions
        = [.textEvent "py-error" ("Process error: " ++ err)] ∧
      (relay_handle_event l (.terminated code) s).emissions
        = [.codeEvent "backend-terminated" code] := by
  intro line err code s l
  exact ⟨rfl, rfl, rfl, rfl⟩

/-- Counterexample to C6 as stated: on allocation failure the code
falls back to 8000 but logs the diagnostic at error level, not at
warning level. -/
theorem allocate_port_failure_level_cex :
    allocate_port none
      = (8000, [(LogLevel.error,
          "Failed to find an available port, using default 8000")]) ∧
    LogLevel.error ≠ LogLevel.warn :=
  ⟨rfl, by decide⟩

/-- Claim C6 as amended: when the port picker finds no free port,
setup stores the fixed fallback 8000, emits an error-level diagnostic,
and startup proceeds (a subsequent successful spawn still stores the
child handle). -/
theorem allocate_port_failure_fallback :
    ∀ (so : Except String Unit) (sp : Except String Nat) (l : Bool),
      (run_setup ⟨none, so, sp, l⟩ initialState).1.backendPort = 8000 ∧
      (LogLevel.error, "Failed to find an available port, using default 8000")
        ∈ (run_setup ⟨none, so, sp, l⟩ initialState).2 ∧
      (∀ cid, so = Except.ok () → sp = Except.ok cid → l = true →
        (run_setup ⟨none, so, sp, l⟩ initialState).1.backendChild = some cid) := by
  intro so sp l
  refine ⟨?_, ?_, ?_⟩
  · rw [run_setup_backendPort]; rfl
  · unfold run_setup
    cases so <;> cases sp <;> simp [allocate_port]
  · intro cid hso hsp hl
    subst hso; subst hsp; subst hl
    simp [run_setup, allocate_port, initialState]

/-- Witness for the amended C6: with no free port and a successful
spawn, the stored port is 8000 and the child handle is registered. -/
theorem allocate_port_failure_fallback_witness :
    (run_setup ⟨none, Except.ok (), Except.ok 7, true⟩
      initialState).1.backendPort = 8000 ∧
    (run_setup ⟨none, Except.ok (), Except.ok 7, true⟩
      initialState).1.backendChild = some 7 := by
  have h := allocate_port_failure_fallback (Except.ok ()) (Except.ok 7) true
  exact ⟨h.1, h.2.2 7 rfl rfl rfl⟩

/-- Claim C10: when acquiring the registry mutex fails, the locked
branch of `terminate_backend` is skipped silently: the call returns
`Ok(())`, the state is unchanged (so a live child stays registered),
and no kill request is issued. -/
theorem terminate_backend_lock_failure_silent :
    ∀ (kr : Except String Unit) (s : RegistryState),
      terminate_backend false kr s = ⟨.ok (), s, 0⟩ := by
  intro kr s
  rfl

end MsRewards
